import Mathlib

/-!
Shallow embedding of the stream-editing engine in `src/examples/sed.py`
(the `PySedCore` interpreter): data model, address matching, command
execution and the multi-stream processing loop, together with theorems
settling the specification claims about it.

Python strings are modelled as `List Char`; Python `int` as `Int`;
Python dicts keyed by strings as insertion-ordered association lists.
The host regular-expression engine (`re`) is external to the repository;
the engine is parameterised over it (`RegexEngine`), and a concrete
instance `litEngine` models `re` on metacharacter-free (literal)
patterns, which is all the claims exercise.
-/

/-- Python `str` values are modelled as lists of characters. -/
abbrev Str := List Char

namespace PySed

/-- `SedCommandType` enum from sed.py lines 13-40: one tag per command letter. -/
inductive SedCommandType where
  | BRANCH            -- 'b'
  | COMMENT           -- '#'
  | DELETE            -- 'd'
  | DELETE_FIRST_LINE -- 'D'
  | EQUAL             -- '='
  | GLOBAL_SUB        -- 'g'
  | HOLD              -- 'h'
  | HOLD_APPEND       -- 'H'
  | INSERT            -- 'i'
  | LABEL             -- ':'
  | NEXT              -- 'n'
  | NEXT_READ         -- 'N'
  | PRINT             -- 'p'
  | PRINT_FIRST_LINE  -- 'P'
  | QUIT              -- 'q'
  | QUIT_SILENT       -- 'Q'
  | READ_FILE         -- 'r'
  | READ_FILE_SILENT  -- 'R'
  | SUBSTITUTE        -- 's'
  | TEST              -- 't'
  | TEST_BRANCH       -- 'T'
  | EXCHANGE          -- 'x'
  | TRANSLIT          -- 'y'
  | WRITE             -- 'w'
  | WRITE_FIRST_LINE  -- 'W'
  | CHANGE            -- 'c'
  | SWAPCASE          -- 'l'
  deriving DecidableEq, Repr

/-- An address value as the engine receives it: `Optional[Union[int, str]]`
(sed.py line 47); the script parser always produces the `str` form. -/
inductive PyAddr where
  | int (n : Int)
  | str (s : Str)
  deriving DecidableEq, Repr

/-- The `args` dict of a command (`Dict[str, Any]`, sed.py line 50), restricted
to the keys the engine reads: `label`, `text`, `pattern`, `replacement`,
`flags`, `count`. A `none` field models an absent key. -/
structure SedArgs where
  label : Option Str := none
  text : Option Str := none
  pattern : Option Str := none
  replacement : Option Str := none
  flags : Option Str := none
  count : Option Int := none
  deriving DecidableEq, Repr

/-- `SedCommand` TypedDict, sed.py lines 46-51. -/
structure SedCommand where
  addr1 : Option PyAddr
  addr2 : Option PyAddr
  cmd_type : SedCommandType
  args : SedArgs
  deriving DecidableEq, Repr

/-- `SedScript` dataclass, sed.py lines 42-44. -/
structure SedScript where
  commands : List SedCommand
  deriving DecidableEq, Repr

/-- `SedPatternSpace` runtime state, sed.py lines 53-59. -/
structure SedPatternSpace where
  pattern_space : Str := []
  hold_space : Str := []
  substituted : Bool := false
  line_num : Int := 0
  last_line_num : Int := 0
  deriving DecidableEq, Repr

/-- `SedOptions`, sed.py lines 79-90, defaults as in `__init__`. -/
structure SedOptions where
  quiet : Bool := false
  extended_regex : Bool := false
  in_place : Option Str := none
  unbuffered : Bool := false
  null_data : Bool := false
  sandbox : Bool := false
  posix : Bool := false
  separate : Bool := false
  line_wrap : Int := 80
  follow_symlinks : Bool := false
  deriving DecidableEq, Repr

/-- The host regular-expression engine (Python's `re` module), external to the
repository, abstracted as the two operations the sed engine uses:
`rmatch pat s` is `bool(re.compile(pat).match(s))` (anchored at the start) and
`rsub pat repl s count` is `re.compile(pat).sub(repl, s, count)` where
`count = 0` means replace all matches and `count = n > 0` means replace the
first `n` matches (Python's documented `count` semantics). The `RegexMatcher`
class in sed.py lines 61-77 only adds a compile cache and flag handling. -/
structure RegexEngine where
  rmatch : Str → Str → Bool
  rsub : Str → Str → Str → Nat → Str

/-- Python `str.isdigit()` on ASCII digit strings: nonempty and all digits. -/
def pyIsDigit (s : Str) : Bool :=
  !s.isEmpty && s.all (·.isDigit)

/-- Value of a digit string, as Python `int(s)` for `s.isdigit()` strings. -/
def digitsToNat (s : Str) : Nat :=
  s.foldl (fun n c => n * 10 + (c.toNat - 48)) 0

/-- Python `s.split(c)`: split on every occurrence of the character `c`. -/
def splitOnChar : Str → Char → List Str
  | [], _ => [[]]
  | x :: xs, c =>
    match splitOnChar xs c with
    | [] => [[x]]
    | h :: t => if x = c then [] :: h :: t else (x :: h) :: t

/-- Python `s.rstrip(c)` for a single character: drop trailing copies of `c`. -/
def rstripChar (c : Char) (s : Str) : Str :=
  (s.reverse.dropWhile (· == c)).reverse

/-- Python `s.split(sep, 1)[1]`: everything after the first occurrence of the
character (used by `D` at sed.py line 151, guarded by a containment check). -/
def afterFirstChar : Str → Char → Str
  | [], _ => []
  | x :: xs, c => if x = c then xs else afterFirstChar xs c

/-- The step-address arm of `parse_address` (sed.py lines 105-107):
`start, step = map(int, addr.split('~'))` then `(line - start) % step == 0`
with Python's floor-convention `%` (`Int.fmod`). A split that does not give
exactly two decimal fields raises `ValueError` in Python; that crash case is
modelled as `none` (no claim exercises step addresses). -/
def stepAddrMatch (a : Str) (line_num : Int) : Option Bool :=
  match splitOnChar a '~' with
  | [s1, s2] =>
    if pyIsDigit s1 ∧ pyIsDigit s2 then
      some (decide (Int.fmod (line_num - (digitsToNat s1 : Int)) (digitsToNat s2 : Int) = 0))
    else none
  | _ => none

/-- `parse_address`, sed.py lines 92-108. Returns `none` for a missing or
unrecognised address, `some b` for a decided one. The regex arm
(`addr.startswith('/')`) strips the delimiters (`addr[1:-1]`) and asks the
host regex engine for an anchored match against the pattern space. -/
def parse_address (RE : RegexEngine) (addr : Option PyAddr) (line_num : Int)
    (pattern_space : Str) (last_line_num : Int) : Option Bool :=
  match addr with
  | none => none
  | some (.int n) => some (decide (line_num = n))
  | some (.str a) =>
    if a = "$".data then
      some (decide (line_num = last_line_num))
    else if a.head? = some '/' then
      some (RE.rmatch ((a.drop 1).dropLast) pattern_space)
    else if pyIsDigit a then
      some (decide (line_num = (digitsToNat a : Int)))
    else if a.contains '~' then
      stepAddrMatch a line_num
    else
      none

/-- `matches_command`, sed.py lines 110-125: both addresses are re-evaluated
independently on every line (no range state is kept anywhere); `addr1`'s
verdict, when defined, decides alone, and `addr2` is consulted only when
`addr1` is present but undecidable. -/
def matches_command (RE : RegexEngine) (ps : SedPatternSpace) (cmd : SedCommand) : Bool :=
  let addr1_match := parse_address RE cmd.addr1 ps.line_num ps.pattern_space ps.last_line_num
  let addr2_match := parse_address RE cmd.addr2 ps.line_num ps.pattern_space ps.last_line_num
  if cmd.addr1 = none ∧ cmd.addr2 = none then true
  else if addr1_match = some true then true
  else if addr1_match = some false then false
  else
    match addr2_match with
    | some b => b
    | none => true

/-- Python dict lookup `d[k]` on the label table. -/
def dictGet : List (Str × Nat) → Str → Option Nat
  | [], _ => none
  | (k', v) :: rest, k => if k' = k then some v else dictGet rest k

/-- Python `k in d` on the label table. -/
def dictContains (d : List (Str × Nat)) (k : Str) : Bool :=
  (dictGet d k).isSome

/-- Python dict assignment `d[k] = v`: update in place or append. -/
def dictSet : List (Str × Nat) → Str → Nat → List (Str × Nat)
  | [], k, v => [(k, v)]
  | (k', v') :: rest, k, v =>
    if k' = k then (k, v) :: rest else (k', v') :: dictSet rest k v

/-- Worker for `reSubLit`: scan left to right, replacing a non-overlapping
occurrence of `pat` whenever it is a prefix of the remaining text and the
replacement budget is not exhausted. `fuel` bounds the recursion; for a
nonempty `pat` every step consumes at least one character of `s`, so
`s.length + 1` always suffices. -/
def litSubGo (pat repl : Str) : Nat → Str → Nat → Str
  | 0, s, _ => s
  | _ + 1, [], _ => []
  | fuel + 1, c :: rest, budget =>
    if budget = 0 then c :: rest
    else if pat.isPrefixOf (c :: rest) then
      repl ++ litSubGo pat repl fuel ((c :: rest).drop pat.length) (budget - 1)
    else
      c :: litSubGo pat repl fuel rest budget

/-- `re.sub(pat, repl, s, count)` for a nonempty literal (metacharacter-free)
pattern: replace the leftmost non-overlapping occurrences, all of them when
`count = 0`, otherwise only the first `count` of them — Python's documented
`count` behaviour. (An empty pattern, which `re` treats as matching at every
position, is outside the modelled fragment and left unchanged; no claim and
no concrete script here uses one.) -/
def reSubLit (pat repl s : Str) (count : Nat) : Str :=
  if pat.isEmpty then s
  else litSubGo pat repl (s.length + 1) s (if count = 0 then s.length + 1 else count)

/-- The host `re` engine instantiated for literal patterns: an anchored
`match` of a literal pattern succeeds exactly when the pattern is a prefix of
the string, and `sub` is `reSubLit`. -/
def litEngine : RegexEngine :=
  ⟨fun pat s => pat.isPrefixOf s, reSubLit⟩

/-- Result of one `execute_command` call: the (mutated) pattern-space state,
label table and output buffer, and the returned `bool`
(`true` = continue to the next command, `false` = stop the command loop). -/
structure ExecResult where
  ps : SedPatternSpace
  labels : List (Str × Nat)
  output : List Str
  cont : Bool
  deriving DecidableEq, Repr

/-- `execute_command`, sed.py lines 127-204, as a function from the mutable
arguments to their new values plus the returned `bool`. The Python
parameters `script` and `input_file` are never read by the body; `script` is
kept in the signature and `input_file` (a file handle, only ever passed
through) is dropped. The body reads `options` only as
`RegexMatcher(options.extended_regex)`, which the `RE` parameter abstracts
(the flag merely selects the `re` compilation flags). The dict accesses `args['text']`, `args['pattern']`,
`args['replacement']` would raise `KeyError` on a malformed command; they are
modelled with `[]` defaults, and every command built in this file carries the
keys its kind reads. Command kinds with no arm in the Python `if/elif` chain
fall through to the final `return True` with no state change; those arms are
written out explicitly below. -/
def execute_command (RE : RegexEngine) (ps : SedPatternSpace) (cmd : SedCommand)
    (_script : SedScript) (_options : SedOptions) (labels : List (Str × Nat))
    (output : List Str) : ExecResult :=
  if ¬ matches_command RE ps cmd then ⟨ps, labels, output, true⟩
  else
    match cmd.cmd_type with
    | .COMMENT => ⟨ps, labels, output, true⟩
    | .LABEL => ⟨ps, dictSet labels (cmd.args.label.getD []) 0, output, true⟩
    | .BRANCH =>
      let label := cmd.args.label.getD "0".data
      if dictContains labels label then ⟨ps, labels, output, false⟩
      else ⟨ps, labels, output, true⟩
    | .DELETE => ⟨{ ps with pattern_space := [] }, labels, output, false⟩
    | .DELETE_FIRST_LINE =>
      if ps.pattern_space.contains '\n' then
        ⟨{ ps with pattern_space := afterFirstChar ps.pattern_space '\n' }, labels, output, false⟩
      else ⟨{ ps with pattern_space := [] }, labels, output, false⟩
    | .PRINT => ⟨ps, labels, output ++ [ps.pattern_space ++ "\n".data], true⟩
    | .EQUAL => ⟨ps, labels, output ++ [(toString ps.line_num).data ++ "\n".data], true⟩
    | .NEXT => ⟨ps, labels, output, false⟩
    | .INSERT => ⟨ps, labels, output ++ [cmd.args.text.getD []], true⟩
    | .QUIT => ⟨ps, labels, output, false⟩
    | .SUBSTITUTE =>
      let pat := cmd.args.pattern.getD []
      let repl := cmd.args.replacement.getD []
      let flags := cmd.args.flags.getD []
      let global_flag := flags.contains 'g'
      let count := cmd.args.count.getD 0
      if count > 0 then
        let result := RE.rsub pat repl ps.pattern_space count.toNat
        ⟨{ ps with
            substituted := decide (result ≠ ps.pattern_space),
            pattern_space := result }, labels, output, true⟩
      else
        let c2 := if global_flag then 0 else 1
        let result := RE.rsub pat repl ps.pattern_space c2
        ⟨{ ps with
            substituted := decide (result ≠ ps.pattern_space),
            pattern_space := result }, labels, output, true⟩
    | .HOLD => ⟨{ ps with hold_space := ps.pattern_space }, labels, output, true⟩
    | .HOLD_APPEND =>
      ⟨{ ps with hold_space := ps.hold_space ++ "\n".data ++ ps.pattern_space },
        labels, output, true⟩
    | .EXCHANGE =>
      ⟨{ ps with pattern_space := ps.hold_space, hold_space := ps.pattern_space },
        labels, output, true⟩
    | .TEST =>
      if ps.substituted then ⟨ps, labels, output, false⟩ else ⟨ps, labels, output, true⟩
    | .TEST_BRANCH =>
      if ¬ ps.substituted then ⟨ps, labels, output, false⟩ else ⟨ps, labels, output, true⟩
    | .GLOBAL_SUB => ⟨ps, labels, output, true⟩
    | .NEXT_READ => ⟨ps, labels, output, true⟩
    | .PRINT_FIRST_LINE => ⟨ps, labels, output, true⟩
    | .QUIT_SILENT => ⟨ps, labels, output, true⟩
    | .READ_FILE => ⟨ps, labels, output, true⟩
    | .READ_FILE_SILENT => ⟨ps, labels, output, true⟩
    | .WRITE => ⟨ps, labels, output, true⟩
    | .WRITE_FIRST_LINE => ⟨ps, labels, output, true⟩
    | .TRANSLIT => ⟨ps, labels, output, true⟩
    | .CHANGE => ⟨ps, labels, output, true⟩
    | .SWAPCASE => ⟨ps, labels, output, true⟩

/-- Python `stream.readline()` on the remaining stream content: the prefix up
to and including the first newline (or all of it when there is none), paired
with the rest; `([], _)` is end-of-stream. -/
def readline : Str → Str × Str
  | [] => ([], [])
  | c :: rest =>
    if c = '\n' then ([c], rest)
    else
      let (l, r) := readline rest
      (c :: l, r)

/-- The mutable state threaded through `PySedCore_process`: the pattern-space
object, the label dict, the lines already yielded by the generator, and the
pending `output_buffer`. -/
structure RunState where
  ps : SedPatternSpace
  labels : List (Str × Nat)
  out : List Str
  buffer : List Str
  deriving DecidableEq, Repr

/-- The inner `while continue_script and cmd_idx < len(script.commands)` loop
of `PySedCore_process` (sed.py lines 299-314). After a `BRANCH` command the
loop re-reads the label from the dict and sets `cmd_idx` to its stored index
when present; but since a found label also made `execute_command` return
`False`, the loop then exits, so whenever it continues `cmd_idx` has grown by
one — `script.commands.length + 1` fuel therefore always covers the whole
loop from index 0. -/
def commandLoop (RE : RegexEngine) (script : SedScript) (options : SedOptions) :
    Nat → Nat → SedPatternSpace → List (Str × Nat) → List Str →
    SedPatternSpace × List (Str × Nat) × List Str
  | 0, _, ps, labels, buffer => (ps, labels, buffer)
  | fuel + 1, cmd_idx, ps, labels, buffer =>
    match script.commands.get? cmd_idx with
    | none => (ps, labels, buffer)
    | some cmd =>
      let r := execute_command RE ps cmd script options labels buffer
      let next_idx :=
        if cmd.cmd_type = .BRANCH then
          match dictGet r.labels (cmd.args.label.getD "0".data) with
          | some j => j
          | none => cmd_idx + 1
        else cmd_idx + 1
      if r.cont then commandLoop RE script options fuel next_idx r.ps r.labels r.output
      else (r.ps, r.labels, r.output)

/-- One per-line cycle of `PySedCore_process` after the pattern space has been
loaded (sed.py lines 296-322): bump `line_num`, set `last_line_num` to it, run
the command loop from index 0, auto-print unless quiet, and flush the buffer
to the yielded output when unbuffered. -/
def runLine (RE : RegexEngine) (script : SedScript) (options : SedOptions)
    (st : RunState) : RunState :=
  let ps1 := { st.ps with line_num := st.ps.line_num + 1 }
  let ps2 := { ps1 with last_line_num := ps1.line_num }
  let (ps3, labels, buffer) :=
    commandLoop RE script options (script.commands.length + 1) 0 ps2 st.labels st.buffer
  let buffer2 :=
    if !options.quiet then buffer ++ [ps3.pattern_space ++ "\n".data] else buffer
  if options.unbuffered then ⟨ps3, labels, st.out ++ buffer2, []⟩
  else ⟨ps3, labels, st.out, buffer2⟩

/-- The `while not done` read loop over one stream (sed.py lines 282-322). In
null-data mode `stream.read()` consumes the whole remaining stream at once;
otherwise one `readline()` is taken per iteration and stripped of its
trailing newlines. `fuel` bounds the iterations; every iteration that does
not break consumes at least one character, so `stream.length + 1` always
suffices. Commands never read from the stream themselves (`n` ends the cycle
without reading and `N` falls through as a no-op), so the read loop is the
stream's only consumer. -/
def processStream (RE : RegexEngine) (script : SedScript) (options : SedOptions) :
    Nat → Str → RunState → RunState
  | 0, _, st => st
  | fuel + 1, stream, st =>
    if options.null_data then
      let line := rstripChar '\x00' stream
      if line.isEmpty then st
      else
        let st1 := { st with ps := { st.ps with pattern_space := line ++ ['\x00'] } }
        processStream RE script options fuel [] (runLine RE script options st1)
    else
      let (line, rest) := readline stream
      if line.isEmpty then st
      else
        let st1 := { st with ps := { st.ps with pattern_space := rstripChar '\n' line } }
        processStream RE script options fuel rest (runLine RE script options st1)

/-- `PySedCore_process`, sed.py lines 273-330, with the generator modelled as
the list of yielded lines. A fresh `SedPatternSpace` and empty label dict and
output buffer are created, `ps.line_num` is reset to 0 at the start of every
stream, each stream is consumed by the read loop, `separate` mode flushes the
buffer after each stream, and whatever remains in the buffer is yielded at
the end. -/
def PySedCore_process (RE : RegexEngine) (input_streams : List Str)
    (script : SedScript) (options : SedOptions) : List Str :=
  let init : RunState := ⟨⟨[], [], false, 0, 0⟩, [], [], []⟩
  let final := input_streams.foldl
    (fun st stream =>
      let st1 := { st with ps := { st.ps with line_num := 0 } }
      let st2 := processStream RE script options (stream.length + 1) stream st1
      if options.separate then { st2 with out := st2.out ++ st2.buffer, buffer := [] }
      else st2)
    init
  final.out ++ final.buffer

/-! Concrete scripts, commands and states used to settle the claims. All of
them are built exactly as the engine would receive them: addresses are the
strings the script parser produces, and `last_line_num` always equals
`line_num` because `PySedCore_process` reassigns it on every line. -/

/-- Options as `SedOptions()` constructs them. -/
def defaultOptions : SedOptions := {}

/-- Options with the quiet flag (`-n`) enabled. -/
def quietOptions : SedOptions := { quiet := true }

/-- Runtime state while line `n` (content `content`) is current: fresh hold
space, clear substituted flag, `last_line_num = line_num` as maintained by
the read loop. -/
def stateAtLine (n : Int) (content : Str) : SedPatternSpace :=
  ⟨content, [], false, n, n⟩

/-- The command of the script `2,4d`: delete with address range `"2"`,`"4"`. -/
def rangeDeleteCmd : SedCommand :=
  ⟨some (.str "2".data), some (.str "4".data), .DELETE, {}⟩

/-- The command `s/a/b/2`: substitute with an explicit numeric count of 2. -/
def countSubCmd : SedCommand :=
  ⟨none, none, .SUBSTITUTE,
    { pattern := some "a".data, replacement := some "b".data, count := some 2 }⟩

/-- An unaddressed print command `p`. -/
def printCmd : SedCommand := ⟨none, none, .PRINT, {}⟩

/-- An unaddressed branch `b x` to the label `x`. -/
def branchXCmd : SedCommand := ⟨none, none, .BRANCH, { label := some "x".data }⟩

/-- The label declaration `:x`. -/
def labelXCmd : SedCommand := ⟨none, none, .LABEL, { label := some "x".data }⟩

/-- The script `b x` / `p` / `:x`: a forward branch to a label declared two
commands later. -/
def branchBeforeLabelScript : SedScript := ⟨[branchXCmd, printCmd, labelXCmd]⟩

/-- A branch `b nope` whose label is declared nowhere. -/
def undefBranchCmd : SedCommand := ⟨none, none, .BRANCH, { label := some "nope".data }⟩

/-- The test command `t end` (branch on the substituted flag). -/
def testEndCmd : SedCommand := ⟨none, none, .TEST, { label := some "end".data }⟩

/-- The test command `t` with no label. -/
def testCmd : SedCommand := ⟨none, none, .TEST, {}⟩

/-- Runtime state in which a previous substitution has set the flag. -/
def flaggedState : SedPatternSpace := ⟨"x".data, [], true, 1, 1⟩

/-- The command `1s/a/b/`: substitute only on line 1. -/
def subLine1Cmd : SedCommand :=
  ⟨some (.str "1".data), none, .SUBSTITUTE,
    { pattern := some "a".data, replacement := some "b".data }⟩

/-- The script `1s/a/b/` / `t` / `p`, probing the substituted flag on later
lines: `p` runs only on a line whose cycle reaches it with the flag clear. -/
def flagProbeScript : SedScript := ⟨[subLine1Cmd, testCmd, printCmd]⟩

/-- The line-number printing command `=`. -/
def equalCmd : SedCommand := ⟨none, none, .EQUAL, {}⟩

/-- The command `$p`: print only on the last line. -/
def lastLinePrintCmd : SedCommand := ⟨some (.str "$".data), none, .PRINT, {}⟩

/-- The one-command script `p`. -/
def printOnlyScript : SedScript := ⟨[printCmd]⟩

/-- The unaddressed change command `c` (one of the kinds the engine leaves
unimplemented). -/
def changeCmd : SedCommand := ⟨none, none, .CHANGE, {}⟩

/-- The command kinds that have no arm in `execute_command`'s `if/elif` chain
and hit the trailing `return True` (sed.py line 204). -/
def fallthroughKinds : List SedCommandType :=
  [.NEXT_READ, .PRINT_FIRST_LINE, .QUIT_SILENT, .READ_FILE, .READ_FILE_SILENT,
    .WRITE, .WRITE_FIRST_LINE, .TRANSLIT, .CHANGE, .SWAPCASE]

/-- A stream whose content is the given lines, each newline-terminated. -/
def linesToStream (ls : List Str) : Str :=
  (ls.map (· ++ "\n".data)).flatten

/-- C1: the spec claims two-address range matching is stateful per command —
once address1 matches, the command stays active through the first later line
matching address2. The code keeps no such state: `matches_command`
re-evaluates both addresses on every line and returns `addr1`'s verdict
whenever it is decided, so the `2,4` range command applies on line 2 and on
no other line — lines 3 and 4 are outside it. -/
theorem c1_range_matching_is_stateless :
    matches_command litEngine (stateAtLine 2 "l2".data) rangeDeleteCmd = true ∧
    matches_command litEngine (stateAtLine 3 "l3".data) rangeDeleteCmd = false ∧
    matches_command litEngine (stateAtLine 4 "l4".data) rangeDeleteCmd = false := by
  decide

/-- C2: the spec claims `s/a/b/2` on `aaa` replaces only the second match,
yielding `aba`. The code passes the count straight to `re.sub`, whose `count`
argument replaces the FIRST two matches, yielding `bba`. -/
theorem c2_numeric_count_replaces_first_n :
    (execute_command litEngine (stateAtLine 1 "aaa".data) countSubCmd ⟨[countSubCmd]⟩
        defaultOptions [] []).ps.pattern_space = "bba".data ∧
    ("bba".data : Str) ≠ "aba".data := by
  decide

/-- C3: the spec claims the label table is built before execution and maps
each label to its command index, branch jumping there. In the code the table
starts empty and is populated only when a LABEL command executes, always with
index 0: a branch at index 0 to a label declared at index 2 finds the table
empty and falls through, so the `p` at index 1 still runs (first conjunct);
and executing the label command at index 2 records `("x", 0)`, not
`("x", 2)` (second conjunct). -/
theorem c3_label_table_is_lazy_and_maps_to_zero :
    PySedCore_process litEngine ["hi\n".data] branchBeforeLabelScript quietOptions =
      ["hi\n".data] ∧
    (execute_command litEngine (stateAtLine 1 "hi".data) labelXCmd branchBeforeLabelScript
        defaultOptions [] []).labels = [("x".data, 0)] := by
  decide

/-- C4: the spec claims a branch to an undeclared label makes the run fail
before output. The code's BRANCH arm returns `True` (continue) when the label
is absent from the table: the run completes normally, emitting the
auto-printed line — an exact silent no-op. -/
theorem c4_undefined_label_branch_is_silent_noop :
    PySedCore_process litEngine ["x\n".data] ⟨[undefBranchCmd]⟩ defaultOptions =
      ["x\n".data] := by
  decide

/-- C5: the spec claims `t` on a set substituted flag clears the flag and
jumps to the resolved label. The code's TEST arm merely returns `False`: the
state (flag included) is untouched and the cycle ends — no label resolution,
no flag clearing. -/
theorem c5_test_neither_clears_flag_nor_jumps :
    execute_command litEngine flaggedState testEndCmd ⟨[testEndCmd]⟩ defaultOptions [] [] =
      ⟨flaggedState, [], [], false⟩ ∧
    flaggedState.substituted = true := by
  decide

/-- C6: the spec claims the substituted flag is cleared at the start of every
line's cycle. The read loop in `PySedCore_process` never resets it, so the
flag set by `1s/a/b/` on line 1 is still set when line 2's commands begin:
`t` fires on line 2 as well and the `p` after it never runs, giving empty
output. Were the flag cleared as claimed, `t` would not fire on line 2 and
the output would be `["x\n"]`. -/
theorem c6_substituted_flag_persists_across_lines :
    PySedCore_process litEngine ["a\nx\n".data] flagProbeScript quietOptions = [] := by
  decide

/-- C7: the spec claims that outside separate mode line numbers continue
across streams and `$` matches only the final line of the final stream. The
code resets `ps.line_num = 0` at the top of EVERY stream, so two one-line
streams both print line number 1 (first conjunct); and it reassigns
`last_line_num = line_num` on every line, making `$` match every line, so
`$p` prints both lines of a two-line stream (second conjunct). -/
theorem c7_numbering_resets_and_last_line_matches_every_line :
    PySedCore_process litEngine ["a\n".data, "b\n".data] ⟨[equalCmd]⟩ quietOptions =
      ["1\n".data, "1\n".data] ∧
    PySedCore_process litEngine ["a\nb\n".data] ⟨[lastLinePrintCmd]⟩ quietOptions =
      ["a\n".data, "b\n".data] := by
  decide

/-- C8: the spec claims `2,4d` on 5 lines outputs exactly lines 1 and 5. Run
on the engine, the range command applies only on line 2 (stateless address
matching), and the deleted line still gets its auto-print of the emptied
pattern space, so the output is five lines: `l1`, an empty line where line 2
was, and `l3`, `l4`, `l5` untouched. (The script text `2,4d` does not even
survive parsing: `parse_addresses` splits it into address `"2"` and command
body `"4d"`, and `SedCommandType('4')` raises `ValueError`.) -/
theorem c8_range_delete_keeps_lines_3_and_4 :
    PySedCore_process litEngine ["l1\nl2\nl3\nl4\nl5\n".data] ⟨[rangeDeleteCmd]⟩
        defaultOptions =
      ["l1\n".data, "\n".data, "l3\n".data, "l4\n".data, "l5\n".data] := by
  decide

/-- Dropping leading newlines from a newline-free list changes nothing. -/
theorem dropWhile_no_newline (l : Str) (h : '\n' ∉ l) :
    l.dropWhile (· == '\n') = l := by
  cases l with
  | nil => rfl
  | cons c t =>
    have hc : ¬ (c == '\n') = true := by
      simp only [beq_iff_eq]
      intro e
      exact h (by simp [e])
    simp [List.dropWhile_cons, hc]

/-- `rstrip('\n')` removes exactly the terminator of a newline-free line. -/
theorem rstrip_terminated (l : Str) (h : '\n' ∉ l) :
    rstripChar '\n' (l ++ ['\n']) = l := by
  unfold rstripChar
  rw [List.reverse_append]
  simp only [List.reverse_cons, List.reverse_nil, List.nil_append, List.singleton_append,
    List.dropWhile_cons]
  have hnl : (('\n' : Char) == '\n') = true := by simp
  rw [hnl]
  simp only [if_true]
  rw [dropWhile_no_newline l.reverse (by simpa using h)]
  simp

/-- `readline` on a stream starting with a newline-terminated, newline-free
line returns that line (terminator included) and the rest of the stream. -/
theorem readline_terminated (l s : Str) (h : '\n' ∉ l) :
    readline (l ++ '\n' :: s) = (l ++ ['\n'], s) := by
  induction l with
  | nil => simp [readline]
  | cons c t ih =>
    have hc : c ≠ '\n' := by
      intro e
      exact h (by simp [e])
    have ht : '\n' ∉ t := fun m => h (List.mem_cons_of_mem _ m)
    simp [readline, hc, ih ht]

/-- One cycle of the lone-`p` quiet script: the line number advances, the
pattern space (already loaded by the caller) is printed into the buffer once,
and nothing else changes. -/
theorem runLine_print_quiet (RE : RegexEngine) (st : RunState) :
    runLine RE printOnlyScript quietOptions st =
      ⟨⟨st.ps.pattern_space, st.ps.hold_space, st.ps.substituted,
          st.ps.line_num + 1, st.ps.line_num + 1⟩, st.labels, st.out,
        st.buffer ++ [st.ps.pattern_space ++ "\n".data]⟩ := rfl

/-- A stream of terminated lines starts with its first line. -/
theorem linesToStream_cons (l : Str) (rest : List Str) :
    linesToStream (l :: rest) = l ++ '\n' :: linesToStream rest := by
  simp [linesToStream]

/-- Each line contributes at least one character (its terminator). -/
theorem linesToStream_length (ls : List Str) :
    ls.length ≤ (linesToStream ls).length := by
  induction ls with
  | nil => simp [linesToStream]
  | cons l rest ih =>
    rw [linesToStream_cons]
    simp only [List.length_cons, List.length_append]
    omega

/-- Running the read loop with the lone-`p` quiet script over a stream of
newline-free lines appends exactly one copy of each line (re-terminated) to
the output buffer, any sufficient fuel given, and touches neither the label
table nor the already-yielded output. -/
theorem processStream_print_quiet (RE : RegexEngine) :
    ∀ (ls : List Str) (fuel : Nat) (st : RunState),
      (∀ l ∈ ls, '\n' ∉ l) → ls.length < fuel →
      ∃ ps2 : SedPatternSpace,
        processStream RE printOnlyScript quietOptions fuel (linesToStream ls) st =
          ⟨ps2, st.labels, st.out, st.buffer ++ ls.map (· ++ "\n".data)⟩ := by
  intro ls
  induction ls with
  | nil =>
    intro fuel st _ hf
    cases fuel with
    | zero => exact absurd hf (by omega)
    | succ f =>
      refine ⟨st.ps, ?_⟩
      simp [processStream, linesToStream, readline, quietOptions]
  | cons l rest ih =>
    intro fuel st hnl hf
    cases fuel with
    | zero => exact absurd hf (by omega)
    | succ f =>
      have hl : '\n' ∉ l := hnl l (List.mem_cons_self ..)
      have hrest : ∀ x ∈ rest, '\n' ∉ x := fun x hx => hnl x (List.mem_cons_of_mem _ hx)
      rw [linesToStream_cons]
      have hread := readline_terminated l (linesToStream rest) hl
      have hstep :
          processStream RE printOnlyScript quietOptions (f + 1)
              (l ++ '\n' :: linesToStream rest) st =
            processStream RE printOnlyScript quietOptions f (linesToStream rest)
              (runLine RE printOnlyScript quietOptions
                { st with ps :=
                    { st.ps with pattern_space := rstripChar '\n' (l ++ ['\n']) } }) := by
        simp [processStream, quietOptions, hread]
      rw [hstep, rstrip_terminated l hl, runLine_print_quiet]
      obtain ⟨ps2, heq⟩ := ih f
        ⟨⟨l, st.ps.hold_space, st.ps.substituted, st.ps.line_num + 1, st.ps.line_num + 1⟩,
          st.labels, st.out, st.buffer ++ [l ++ "\n".data]⟩ hrest
        (by simp only [List.length_cons] at hf; omega)
      refine ⟨ps2, ?_⟩
      rw [heq]
      simp

/-- C9: with quiet enabled and the script consisting of the single
unaddressed command `p`, the engine emits every input line exactly once —
the `p` arm appends the pattern space plus its newline, and the quiet flag
suppresses the auto-print — so the output reproduces the input line for
line. Stated for any host regex engine (the script consults none) and any
input whose lines are newline-free. -/
theorem c9_quiet_lone_print_reproduces_input (RE : RegexEngine) (ls : List Str)
    (h : ∀ l ∈ ls, '\n' ∉ l) :
    PySedCore_process RE [linesToStream ls] printOnlyScript quietOptions =
      ls.map (· ++ "\n".data) := by
  obtain ⟨ps2, heq⟩ :=
    processStream_print_quiet RE ls ((linesToStream ls).length + 1)
      ⟨⟨[], [], false, 0, 0⟩, [], [], []⟩ h
      (by have := linesToStream_length ls; omega)
  show (processStream RE printOnlyScript quietOptions ((linesToStream ls).length + 1)
        (linesToStream ls) ⟨⟨[], [], false, 0, 0⟩, [], [], []⟩).out ++
      (processStream RE printOnlyScript quietOptions ((linesToStream ls).length + 1)
        (linesToStream ls) ⟨⟨[], [], false, 0, 0⟩, [], [], []⟩).buffer =
      ls.map (· ++ "\n".data)
  rw [heq]
  simp

/-- Witness for C9 at a concrete input: quiet `p` over the two-line stream
`ab` / `c` yields exactly those two lines. -/
theorem c9_quiet_lone_print_reproduces_input_witness :
    PySedCore_process litEngine [linesToStream ["ab".data, "c".data]] printOnlyScript
        quietOptions = ["ab\n".data, "c\n".data] :=
  c9_quiet_lone_print_reproduces_input litEngine ["ab".data, "c".data] (by decide)

/-- C10: every command whose kind is `N`, `P`, `Q`, `r`, `R`, `w`, `W`, `y`,
`c` or `l` has no arm in `execute_command`'s dispatch chain and falls through
to the trailing `return True`: even when its addresses select the current
line, it leaves the pattern space, hold space, substituted flag, line
counters, label table and output untouched and continues to the next
command. -/
theorem c10_fallthrough_kinds_are_noops (RE : RegexEngine) (ps : SedPatternSpace)
    (cmd : SedCommand) (script : SedScript) (options : SedOptions)
    (labels : List (Str × Nat)) (output : List Str)
    (hkind : cmd.cmd_type ∈ fallthroughKinds)
    (happlies : matches_command RE ps cmd = true) :
    execute_command RE ps cmd script options labels output = ⟨ps, labels, output, true⟩ := by
  simp only [fallthroughKinds, List.mem_cons, List.not_mem_nil, or_false] at hkind
  rcases hkind with h|h|h|h|h|h|h|h|h|h <;>
    simp [execute_command, happlies, h]

/-- Witness for C10 at a concrete input: an applying `c` (change) command
leaves the state, label table and output unchanged and continues. -/
theorem c10_fallthrough_kinds_are_noops_witness :
    execute_command litEngine (stateAtLine 1 "x".data) changeCmd ⟨[changeCmd]⟩
        defaultOptions [] [] = ⟨stateAtLine 1 "x".data, [], [], true⟩ :=
  c10_fallthrough_kinds_are_noops litEngine (stateAtLine 1 "x".data) changeCmd ⟨[changeCmd]⟩
    defaultOptions [] [] (by decide) (by decide)

end PySed
